import Mathlib

/-!
Verification of the emotion-detection repository.

The repository has two pieces:
  * `EmotionDetection/emotion_detection.py` — the function `emotion_detector`,
    which posts text to a remote Watson service and normalizes the reply into
    a six-field dictionary (five scores plus a dominant-emotion label);
  * `server.py` — a Flask view `emotion_detection_view` that validates the
    submitted statement, invokes `emotion_detector` and renders a message.

We embed both shallowly.  JSON values (the result of `response.json()` and of
`json.loads`) are modelled by the inductive `Json`; numbers are rationals.
Python `None` coincides with JSON `null`, so `Json.null` plays both roles,
exactly as in CPython where `json.loads` decodes JSON `null` to `None`.
Dynamic (uncaught) Python exceptions are modelled by `Except PyErr`; the
network call itself is abstracted by its two observables, the HTTP status code
and the parsed response body, and the standard-library JSON decoder
`json.loads` (used for the nested parse of the `text` field) is a parameter
`loads : String → Option Json`, with `none` standing for `JSONDecodeError`.
-/

/-- JSON values, the image of `response.json()` / `json.loads`.  Object fields
are kept as an association list; bodies produced by a JSON decoder have
distinct keys, and lookups take the first match. -/
inductive Json where
  | null : Json
  | bool : Bool → Json
  | num : ℚ → Json
  | str : String → Json
  | arr : List Json → Json
  | obj : List (String × Json) → Json

/-- Uncaught Python exception kinds that the modelled code can raise.
`valueError` is the `ValueError` that the spec names `MalformedResponseError`;
`httpError` is the `requests.HTTPError` from `raise_for_status`, the spec's
`RemoteServiceError`. -/
inductive PyErr where
  | valueError : PyErr
  | httpError : PyErr
  | typeError : PyErr
  | keyError : PyErr
  | indexError : PyErr
  | attributeError : PyErr
deriving DecidableEq

/-- First-match lookup in an object's field list (Python `d[k]` hit test /
`dict.get`). -/
def lookupJ (fields : List (String × Json)) (k : String) : Option Json :=
  (fields.find? (fun p => p.1 = k)).map (fun p => p.2)

/-- Python truthiness of a decoded JSON value: `None`, `False`, `0`, `""`,
`[]` and `{}` are falsy, everything else truthy. -/
def truthy : Json → Bool
  | Json.null => false
  | Json.bool b => b
  | Json.num q => q ≠ 0
  | Json.str s => s ≠ ""
  | Json.arr xs => !xs.isEmpty
  | Json.obj fs => !fs.isEmpty

/-- Character-list test: `n` occurs at the head of `h`. -/
def listPre : List Char → List Char → Bool
  | [], _ => true
  | _ :: _, [] => false
  | a :: as, b :: bs => a = b && listPre as bs

/-- Character-list test: `n` occurs contiguously somewhere in `h`
(Python substring containment). -/
def listSub (n : List Char) : List Char → Bool
  | [] => listPre n []
  | b :: bs => listPre n (b :: bs) || listSub n bs

/-- Python `needle in container` for a decoded JSON container: key test on a
dict, membership on a list (JSON values compare equal to a string only when
they are that string), substring test on a string; `TypeError` otherwise. -/
def pyIn (needle : String) : Json → Except PyErr Bool
  | Json.obj fs => Except.ok (fs.any (fun p => p.1 = needle))
  | Json.arr xs =>
    Except.ok (xs.any (fun x =>
      match x with
      | Json.str t => t = needle
      | _ => false))
  | Json.str s => Except.ok (listSub needle.toList s.toList)
  | _ => Except.error PyErr.typeError

/-- Python `container[k]` for a string key `k`: dict lookup (`KeyError` when
missing); lists and strings take integer indices only (`TypeError`), and
scalars are not subscriptable (`TypeError`). -/
def pySubscript (j : Json) (k : String) : Except PyErr Json :=
  match j with
  | Json.obj fs =>
    match lookupJ fs k with
    | some v => Except.ok v
    | none => Except.error PyErr.keyError
  | _ => Except.error PyErr.typeError

/-- Python `container[0]`: head of a list (`IndexError` on `[]`), first
character of a string (`IndexError` on `""`), `KeyError` on a dict decoded
from JSON (its keys are strings, never `0`), `TypeError` on scalars. -/
def pySubscriptZero : Json → Except PyErr Json
  | Json.arr (x :: _) => Except.ok x
  | Json.arr [] => Except.error PyErr.indexError
  | Json.str s =>
    if s = "" then Except.error PyErr.indexError
    else Except.ok (Json.str (String.mk [s.toList.headD ' ']))
  | Json.obj _ => Except.error PyErr.keyError
  | _ => Except.error PyErr.typeError

/-- Python `j.get(k, default)`: defaulting field lookup on a dict;
`AttributeError` on any non-dict value, which has no `get` method. -/
def pyGet (j : Json) (k : String) (default : Json) : Except PyErr Json :=
  match j with
  | Json.obj fs => Except.ok ((lookupJ fs k).getD default)
  | _ => Except.error PyErr.attributeError

/-- Numeric value of a Python bool (`True == 1`, `False == 0`). -/
def boolQ (b : Bool) : ℚ := if b then 1 else 0

/-- Python `a > b` on decoded JSON values: numbers (with bools as 0/1)
compare numerically, strings lexicographically; `None`, dicts and mixed
number/string pairs raise `TypeError`.  Python also orders two lists
element-wise, a case no emotion score in any claim exercises; we signal a
dynamic error there as well. -/
def pyGt : Json → Json → Except PyErr Bool
  | Json.num a, Json.num b => Except.ok (decide (b < a))
  | Json.num a, Json.bool b => Except.ok (decide (boolQ b < a))
  | Json.bool a, Json.num b => Except.ok (decide (b < boolQ a))
  | Json.bool a, Json.bool b => Except.ok (decide (boolQ b < boolQ a))
  | Json.str a, Json.str b => Except.ok (decide (b < a))
  | _, _ => Except.error PyErr.typeError

/-- The loop inside Python `max(d, key=d.get)`: keep the current best key and
value, replace them only on a strictly greater value, so the first key
attaining the maximum wins. -/
def maxGo (k : String) (v : Json) : List (String × Json) → Except PyErr String
  | [] => Except.ok k
  | (k', v') :: rest =>
    match pyGt v' v with
    | Except.error e => Except.error e
    | Except.ok true => maxGo k' v' rest
    | Except.ok false => maxGo k v rest

/-- Python `max(emotion_scores, key=emotion_scores.get)` over the entries of
the dict in insertion order (`ValueError` on an empty sequence, as in
Python). -/
def pyMax : List (String × Json) → Except PyErr String
  | [] => Except.error PyErr.valueError
  | (k, v) :: rest => maxGo k v rest

/-- The result record returned by `emotion_detector`: five scores and the
dominant-emotion label.  Score fields hold the raw decoded values (`Json.null`
is Python `None`, the absent marker); `dominant_emotion` is either a
`Json.str` key or `Json.null`. -/
structure EmotionResult where
  anger : Json
  disgust : Json
  fear : Json
  joy : Json
  sadness : Json
  dominant_emotion : Json

/-- The all-`None` dictionary `emotion_detector` returns on HTTP 400. -/
def nullEmotionResult : EmotionResult :=
  { anger := Json.null, disgust := Json.null, fear := Json.null,
    joy := Json.null, sadness := Json.null, dominant_emotion := Json.null }

/-- The shape-selection block of `emotion_detector`
(`emotion_detection.py`, lines 54–66): pick the emotion-keyed object out of
the decoded body.  `loads` stands for `json.loads`; only a string argument
can be decoded (`json.loads` raises `TypeError` on other values), and a
decode failure inside the `text` branch is converted to the `ValueError`
"Failed to decode JSON from 'text' attribute.". -/
def extractEmotionResults (loads : String → Option Json) (response_data : Json) :
    Except PyErr Json :=
  match pyIn "text" response_data with
  | Except.error e => Except.error e
  | Except.ok true =>
    match pySubscript response_data "text" with
    | Except.error e => Except.error e
    | Except.ok (Json.str s) =>
      match loads s with
      | some j => Except.ok j
      | none => Except.error PyErr.valueError
    | Except.ok _ => Except.error PyErr.typeError
  | Except.ok false =>
    match pyIn "emotionPredictions" response_data with
    | Except.error e => Except.error e
    | Except.ok true =>
      match pyGet response_data "emotionPredictions" (Json.arr []) with
      | Except.error e => Except.error e
      | Except.ok predictions =>
        if truthy predictions then
          match pySubscriptZero predictions with
          | Except.error e => Except.error e
          | Except.ok p0 =>
            match pyIn "emotion" p0 with
            | Except.error e => Except.error e
            | Except.ok true => pySubscript p0 "emotion"
            | Except.ok false => Except.error PyErr.valueError
        else Except.error PyErr.valueError
    | Except.ok false => Except.error PyErr.valueError

/-- `emotion_detector` (`emotion_detection.py`).  The remote call is
abstracted by its observables: `status_code`, and `body`, the JSON-decoded
response (`response.json()`); `loads` is the standard-library JSON decoder
used for the nested parse.  In order: the 400 early return of the all-`None`
dictionary; `raise_for_status()`, which raises `requests.HTTPError` exactly
for status codes in [400, 600); shape selection; the five defaulting score
reads; and the `max` computation of the dominant emotion. -/
def emotion_detector (loads : String → Option Json) (status_code : ℕ)
    (body : Json) : Except PyErr EmotionResult :=
  if status_code = 400 then Except.ok nullEmotionResult
  else if 400 ≤ status_code ∧ status_code < 600 then Except.error PyErr.httpError
  else
    match extractEmotionResults loads body with
    | Except.error e => Except.error e
    | Except.ok emotion_results =>
      match pyGet emotion_results "anger" (Json.num 0),
            pyGet emotion_results "disgust" (Json.num 0),
            pyGet emotion_results "fear" (Json.num 0),
            pyGet emotion_results "joy" (Json.num 0),
            pyGet emotion_results "sadness" (Json.num 0) with
      | Except.ok anger_score, Except.ok disgust_score, Except.ok fear_score,
        Except.ok joy_score, Except.ok sadness_score =>
        match pyMax [("anger", anger_score), ("disgust", disgust_score),
                     ("fear", fear_score), ("joy", joy_score),
                     ("sadness", sadness_score)] with
        | Except.error e => Except.error e
        | Except.ok dominant_emotion =>
          Except.ok { anger := anger_score, disgust := disgust_score,
                      fear := fear_score, joy := joy_score,
                      sadness := sadness_score,
                      dominant_emotion := Json.str dominant_emotion }
      | Except.error e, _, _, _, _ => Except.error e
      | _, Except.error e, _, _, _ => Except.error e
      | _, _, Except.error e, _, _ => Except.error e
      | _, _, _, Except.error e, _ => Except.error e
      | _, _, _, _, Except.error e => Except.error e

/-- Python `str()` of a decoded JSON value as interpolated by the success
f-string of the view.  Exact numeric formatting (CPython float `repr`) is
abstracted to the rational's own textual form; no claim depends on it. -/
def pyStr : Json → String
  | Json.null => "None"
  | Json.bool b => if b then "True" else "False"
  | Json.num q => toString q
  | Json.str s => s
  | Json.arr _ => "[...]"
  | Json.obj _ => "{...}"

/-- The success sentence built by `emotion_detection_view` (`server.py`,
lines 49–54). -/
def responseString (r : EmotionResult) : String :=
  "For the given statement, the system response is 'anger': " ++ pyStr r.anger ++
  ", 'disgust': " ++ pyStr r.disgust ++ ", 'fear': " ++ pyStr r.fear ++
  ", 'joy': " ++ pyStr r.joy ++ " and 'sadness': " ++ pyStr r.sadness ++
  ". The dominant emotion is " ++ pyStr r.dominant_emotion ++ "."

/-- `emotion_detection_view` (`server.py`).  The emotion client is a
parameter `detect`; `statement` is `request.form.get('statement')` (absent
field gives `none`).  The rendered page is abstracted to its `result`
message (`none` for the bare form on GET).  The first component records the
arguments with which the client was invoked, so "never invokes the client"
is observable; an exception from the client propagates. -/
def emotion_detection_view (detect : String → Except PyErr EmotionResult)
    (method : String) (statement : Option String) :
    List String × Except PyErr (Option String) :=
  if method = "POST" then
    match statement with
    | none => ([], Except.ok (some "Please enter a valid statement."))
    | some s =>
      if s = "" then ([], Except.ok (some "Please enter a valid statement."))
      else
        match detect s with
        | Except.error e => ([s], Except.error e)
        | Except.ok result =>
          match result.dominant_emotion with
          | Json.null => ([s], Except.ok (some "Invalid text! Please try again!"))
          | _ => ([s], Except.ok (some (responseString result)))
  else ([], Except.ok none)

/-- The specification's description of the dominant emotion, written from the
spec's words: the key holding the maximum-valued score among the five, the
key earlier in the fixed order anger, disgust, fear, joy, sadness winning
ties.  Stated as: the first key in that order whose score is at least every
score. -/
def specDominant (a d f j s : ℚ) : String :=
  if a ≥ d ∧ a ≥ f ∧ a ≥ j ∧ a ≥ s then "anger"
  else if d ≥ a ∧ d ≥ f ∧ d ≥ j ∧ d ≥ s then "disgust"
  else if f ≥ a ∧ f ≥ d ∧ f ≥ j ∧ f ≥ s then "fear"
  else if j ≥ a ∧ j ≥ d ∧ j ≥ f ∧ j ≥ s then "joy"
  else "sadness"

lemma specDominant_anger {a d f j s : ℚ} (hd : d ≤ a) (hf : f ≤ a)
    (hj : j ≤ a) (hs : s ≤ a) : specDominant a d f j s = "anger" := by
  have h1 : a ≥ d ∧ a ≥ f ∧ a ≥ j ∧ a ≥ s := ⟨hd, hf, hj, hs⟩
  simp [specDominant, h1]

lemma specDominant_disgust {a d f j s : ℚ} (ha : a < d) (hf : f ≤ d)
    (hj : j ≤ d) (hs : s ≤ d) : specDominant a d f j s = "disgust" := by
  have h1 : ¬(a ≥ d ∧ a ≥ f ∧ a ≥ j ∧ a ≥ s) := by
    rintro ⟨h, -⟩; exact absurd ha (not_lt.mpr h)
  have h2 : d ≥ a ∧ d ≥ f ∧ d ≥ j ∧ d ≥ s := ⟨le_of_lt ha, hf, hj, hs⟩
  simp [specDominant, h1, h2]

lemma specDominant_fear {a d f j s : ℚ} (ha : a < f) (hd : d < f)
    (hj : j ≤ f) (hs : s ≤ f) : specDominant a d f j s = "fear" := by
  have h1 : ¬(a ≥ d ∧ a ≥ f ∧ a ≥ j ∧ a ≥ s) := by
    rintro ⟨-, h, -⟩; exact absurd ha (not_lt.mpr h)
  have h2 : ¬(d ≥ a ∧ d ≥ f ∧ d ≥ j ∧ d ≥ s) := by
    rintro ⟨-, h, -⟩; exact absurd hd (not_lt.mpr h)
  have h3 : f ≥ a ∧ f ≥ d ∧ f ≥ j ∧ f ≥ s := ⟨le_of_lt ha, le_of_lt hd, hj, hs⟩
  simp [specDominant, h1, h2, h3]

lemma specDominant_joy {a d f j s : ℚ} (ha : a < j) (hd : d < j)
    (hf : f < j) (hs : s ≤ j) : specDominant a d f j s = "joy" := by
  have h1 : ¬(a ≥ d ∧ a ≥ f ∧ a ≥ j ∧ a ≥ s) := by
    rintro ⟨-, -, h, -⟩; exact absurd ha (not_lt.mpr h)
  have h2 : ¬(d ≥ a ∧ d ≥ f ∧ d ≥ j ∧ d ≥ s) := by
    rintro ⟨-, -, h, -⟩; exact absurd hd (not_lt.mpr h)
  have h3 : ¬(f ≥ a ∧ f ≥ d ∧ f ≥ j ∧ f ≥ s) := by
    rintro ⟨-, -, h, -⟩; exact absurd hf (not_lt.mpr h)
  have h4 : j ≥ a ∧ j ≥ d ∧ j ≥ f ∧ j ≥ s :=
    ⟨le_of_lt ha, le_of_lt hd, le_of_lt hf, hs⟩
  simp [specDominant, h1, h2, h3, h4]

lemma specDominant_sadness {a d f j s : ℚ} (ha : a < s) (hd : d < s)
    (hf : f < s) (hj : j < s) : specDominant a d f j s = "sadness" := by
  have h1 : ¬(a ≥ d ∧ a ≥ f ∧ a ≥ j ∧ a ≥ s) := by
    rintro ⟨-, -, -, h⟩; exact absurd ha (not_lt.mpr h)
  have h2 : ¬(d ≥ a ∧ d ≥ f ∧ d ≥ j ∧ d ≥ s) := by
    rintro ⟨-, -, -, h⟩; exact absurd hd (not_lt.mpr h)
  have h3 : ¬(f ≥ a ∧ f ≥ d ∧ f ≥ j ∧ f ≥ s) := by
    rintro ⟨-, -, -, h⟩; exact absurd hf (not_lt.mpr h)
  have h4 : ¬(j ≥ a ∧ j ≥ d ∧ j ≥ f ∧ j ≥ s) := by
    rintro ⟨-, -, -, h⟩; exact absurd hj (not_lt.mpr h)
  simp [specDominant, h1, h2, h3, h4]

/-- The `max` fold over the five numeric scores, in insertion order, computes
exactly the specification's dominant emotion. -/
lemma pyMax_five (a d f j s : ℚ) :
    pyMax [("anger", Json.num a), ("disgust", Json.num d),
           ("fear", Json.num f), ("joy", Json.num j),
           ("sadness", Json.num s)] =
      Except.ok (specDominant a d f j s) := by
  by_cases h1 : a < d
  · by_cases h2 : d < f
    · by_cases h3 : f < j
      · by_cases h4 : j < s
        · rw [specDominant_sadness (by linarith) (by linarith) (by linarith) h4]
          simp [pyMax, maxGo, pyGt, h1, h2, h3, h4]
        · rw [specDominant_joy (by linarith) (by linarith) h3 (not_lt.mp h4)]
          simp [pyMax, maxGo, pyGt, h1, h2, h3, h4]
      · by_cases h4 : f < s
        · rw [specDominant_sadness (by linarith) (by linarith) h4 (by linarith)]
          simp [pyMax, maxGo, pyGt, h1, h2, h3, h4]
        · rw [specDominant_fear (by linarith) h2 (not_lt.mp h3) (not_lt.mp h4)]
          simp [pyMax, maxGo, pyGt, h1, h2, h3, h4]
    · by_cases h3 : d < j
      · by_cases h4 : j < s
        · rw [specDominant_sadness (by linarith) (by linarith) (by linarith) h4]
          simp [pyMax, maxGo, pyGt, h1, h2, h3, h4]
        · rw [specDominant_joy (by linarith) h3 (by linarith) (not_lt.mp h4)]
          simp [pyMax, maxGo, pyGt, h1, h2, h3, h4]
      · by_cases h4 : d < s
        · rw [specDominant_sadness (by linarith) h4 (by linarith) (by linarith)]
          simp [pyMax, maxGo, pyGt, h1, h2, h3, h4]
        · rw [specDominant_disgust h1 (not_lt.mp h2) (not_lt.mp h3) (not_lt.mp h4)]
          simp [pyMax, maxGo, pyGt, h1, h2, h3, h4]
  · by_cases h2 : a < f
    · by_cases h3 : f < j
      · by_cases h4 : j < s
        · rw [specDominant_sadness (by linarith) (by linarith) (by linarith) h4]
          simp [pyMax, maxGo, pyGt, h1, h2, h3, h4]
        · rw [specDominant_joy (by linarith) (by linarith) h3 (not_lt.mp h4)]
          simp [pyMax, maxGo, pyGt, h1, h2, h3, h4]
      · by_cases h4 : f < s
        · rw [specDominant_sadness (by linarith) (by linarith) h4 (by linarith)]
          simp [pyMax, maxGo, pyGt, h1, h2, h3, h4]
        · rw [specDominant_fear h2 (by linarith) (not_lt.mp h3) (not_lt.mp h4)]
          simp [pyMax, maxGo, pyGt, h1, h2, h3, h4]
    · by_cases h3 : a < j
      · by_cases h4 : j < s
        · rw [specDominant_sadness (by linarith) (by linarith) (by linarith) h4]
          simp [pyMax, maxGo, pyGt, h1, h2, h3, h4]
        · rw [specDominant_joy h3 (by linarith) (by linarith) (not_lt.mp h4)]
          simp [pyMax, maxGo, pyGt, h1, h2, h3, h4]
      · by_cases h4 : a < s
        · rw [specDominant_sadness h4 (by linarith) (by linarith) (by linarith)]
          simp [pyMax, maxGo, pyGt, h1, h2, h3, h4]
        · rw [specDominant_anger (not_lt.mp h1) (not_lt.mp h2) (not_lt.mp h3)
            (not_lt.mp h4)]
          simp [pyMax, maxGo, pyGt, h1, h2, h3, h4]

/-- C1: for every successful (non-400, parseable) response, the
`dominant_emotion` field of the returned `EmotionResult` equals the key
holding the maximum score among anger, disgust, fear, joy, sadness, the key
earlier in that fixed order winning ties. -/
theorem dominant_emotion_matches_spec (loads : String → Option Json)
    (status_code : ℕ) (body : Json) (r : EmotionResult) (a d f j s : ℚ)
    (hok : emotion_detector loads status_code body = Except.ok r)
    (h400 : status_code ≠ 400)
    (ha : r.anger = Json.num a) (hd : r.disgust = Json.num d)
    (hf : r.fear = Json.num f) (hj : r.joy = Json.num j)
    (hs : r.sadness = Json.num s) :
    r.dominant_emotion = Json.str (specDominant a d f j s) := by
  rw [emotion_detector, if_neg h400] at hok
  by_cases hrange : 400 ≤ status_code ∧ status_code < 600
  · rw [if_pos hrange] at hok
    exact absurd hok (by simp)
  · rw [if_neg hrange] at hok
    cases hex : extractEmotionResults loads body with
    | error e => rw [hex] at hok; exact absurd hok (by simp)
    | ok er =>
      rw [hex] at hok
      cases hg1 : pyGet er "anger" (Json.num 0) with
      | error e => simp [hg1] at hok
      | ok v1 =>
        cases hg2 : pyGet er "disgust" (Json.num 0) with
        | error e => simp [hg1, hg2] at hok
        | ok v2 =>
          cases hg3 : pyGet er "fear" (Json.num 0) with
          | error e => simp [hg1, hg2, hg3] at hok
          | ok v3 =>
            cases hg4 : pyGet er "joy" (Json.num 0) with
            | error e => simp [hg1, hg2, hg3, hg4] at hok
            | ok v4 =>
              cases hg5 : pyGet er "sadness" (Json.num 0) with
              | error e => simp [hg1, hg2, hg3, hg4, hg5] at hok
              | ok v5 =>
                simp only [hg1, hg2, hg3, hg4, hg5] at hok
                cases hm : pyMax [("anger", v1), ("disgust", v2), ("fear", v3),
                    ("joy", v4), ("sadness", v5)] with
                | error e => simp [hm] at hok
                | ok k =>
                  simp only [hm] at hok
                  rw [Except.ok.injEq] at hok
                  subst hok
                  simp only at ha hd hf hj hs
                  subst ha hd hf hj hs
                  rw [pyMax_five] at hm
                  rw [Except.ok.injEq] at hm
                  simp [hm]

/-- The `max` loop only ever returns the starting key or a key from the
remaining list. -/
lemma maxGo_ok_mem (l : List (String × Json)) :
    ∀ k v res, maxGo k v l = Except.ok res → res = k ∨ res ∈ l.map Prod.fst := by
  induction l with
  | nil =>
    intro k v res h
    simp [maxGo] at h
    exact Or.inl h.symm
  | cons p rest ih =>
    intro k v res h
    obtain ⟨k', v'⟩ := p
    rw [maxGo] at h
    cases hg : pyGt v' v with
    | error e => rw [hg] at h; simp at h
    | ok b =>
      rw [hg] at h
      cases b with
      | false =>
        rcases ih k v res h with h1 | h1
        · exact Or.inl h1
        · right; simp [h1]
      | true =>
        rcases ih k' v' res h with h1 | h1
        · right; simp [h1]
        · right; simp [h1]

/-- C4: on either success shape, each returned score is the value of its key
in the extracted emotion-keyed object when present, and 0 when the key is
missing. -/
theorem scores_default_missing_to_zero (loads : String → Option Json)
    (status_code : ℕ) (body : Json) (g : List (String × Json))
    (r : EmotionResult)
    (hok : emotion_detector loads status_code body = Except.ok r)
    (h400 : status_code ≠ 400)
    (hex : extractEmotionResults loads body = Except.ok (Json.obj g)) :
    r.anger = (lookupJ g "anger").getD (Json.num 0) ∧
    r.disgust = (lookupJ g "disgust").getD (Json.num 0) ∧
    r.fear = (lookupJ g "fear").getD (Json.num 0) ∧
    r.joy = (lookupJ g "joy").getD (Json.num 0) ∧
    r.sadness = (lookupJ g "sadness").getD (Json.num 0) := by
  rw [emotion_detector, if_neg h400] at hok
  by_cases hrange : 400 ≤ status_code ∧ status_code < 600
  · rw [if_pos hrange] at hok
    exact absurd hok (by simp)
  · rw [if_neg hrange, hex] at hok
    simp only [pyGet] at hok
    cases hm : pyMax [("anger", (lookupJ g "anger").getD (Json.num 0)),
        ("disgust", (lookupJ g "disgust").getD (Json.num 0)),
        ("fear", (lookupJ g "fear").getD (Json.num 0)),
        ("joy", (lookupJ g "joy").getD (Json.num 0)),
        ("sadness", (lookupJ g "sadness").getD (Json.num 0))] with
    | error e => simp [hm] at hok
    | ok k =>
      simp only [hm] at hok
      rw [Except.ok.injEq] at hok
      subst hok
      exact ⟨rfl, rfl, rfl, rfl, rfl⟩

/-- C8 (implicit): an extracted emotion object containing none of the five
keys still succeeds, with every score 0 and dominant emotion `"anger"`; and
every successful non-400 return carries one of the five key strings as its
dominant emotion, never the absent marker. -/
theorem missing_keys_give_anger_and_dominant_total :
    (∀ (loads : String → Option Json) (status_code : ℕ) (body : Json)
       (g : List (String × Json)),
       status_code ≠ 400 → ¬(400 ≤ status_code ∧ status_code < 600) →
       extractEmotionResults loads body = Except.ok (Json.obj g) →
       lookupJ g "anger" = none → lookupJ g "disgust" = none →
       lookupJ g "fear" = none → lookupJ g "joy" = none →
       lookupJ g "sadness" = none →
       emotion_detector loads status_code body =
         Except.ok { anger := Json.num 0, disgust := Json.num 0,
                     fear := Json.num 0, joy := Json.num 0,
                     sadness := Json.num 0,
                     dominant_emotion := Json.str "anger" }) ∧
    (∀ (loads : String → Option Json) (status_code : ℕ) (body : Json)
       (r : EmotionResult),
       emotion_detector loads status_code body = Except.ok r →
       status_code ≠ 400 →
       r.dominant_emotion = Json.str "anger" ∨
       r.dominant_emotion = Json.str "disgust" ∨
       r.dominant_emotion = Json.str "fear" ∨
       r.dominant_emotion = Json.str "joy" ∨
       r.dominant_emotion = Json.str "sadness") := by
  constructor
  · intro loads status_code body g h400 hrange hex hA hD hF hJ hS
    rw [emotion_detector, if_neg h400, if_neg hrange, hex]
    simp only [pyGet, hA, hD, hF, hJ, hS, Option.getD_none]
    have h5 := pyMax_five 0 0 0 0 0
    have hspec : specDominant 0 0 0 0 0 = "anger" :=
      specDominant_anger le_rfl le_rfl le_rfl le_rfl
    rw [hspec] at h5
    rw [h5]
  · intro loads status_code body r hok h400
    rw [emotion_detector, if_neg h400] at hok
    by_cases hrange : 400 ≤ status_code ∧ status_code < 600
    · rw [if_pos hrange] at hok
      exact absurd hok (by simp)
    · rw [if_neg hrange] at hok
      cases hex : extractEmotionResults loads body with
      | error e => rw [hex] at hok; exact absurd hok (by simp)
      | ok er =>
        rw [hex] at hok
        cases hg1 : pyGet er "anger" (Json.num 0) with
        | error e => simp [hg1] at hok
        | ok v1 =>
          cases hg2 : pyGet er "disgust" (Json.num 0) with
          | error e => simp [hg1, hg2] at hok
          | ok v2 =>
            cases hg3 : pyGet er "fear" (Json.num 0) with
            | error e => simp [hg1, hg2, hg3] at hok
            | ok v3 =>
              cases hg4 : pyGet er "joy" (Json.num 0) with
              | error e => simp [hg1, hg2, hg3, hg4] at hok
              | ok v4 =>
                cases hg5 : pyGet er "sadness" (Json.num 0) with
                | error e => simp [hg1, hg2, hg3, hg4, hg5] at hok
                | ok v5 =>
                  simp only [hg1, hg2, hg3, hg4, hg5] at hok
                  cases hm : pyMax [("anger", v1), ("disgust", v2),
                      ("fear", v3), ("joy", v4), ("sadness", v5)] with
                  | error e => simp [hm] at hok
                  | ok k =>
                    simp only [hm] at hok
                    rw [Except.ok.injEq] at hok
                    subst hok
                    rw [pyMax] at hm
                    have := maxGo_ok_mem _ _ _ _ hm
                    simp only at this ⊢
                    rcases this with h | h
                    · subst h; exact Or.inl rfl
                    · simp only [List.map, List.mem_cons, List.not_mem_nil,
                        or_false] at h
                      rcases h with h | h | h | h <;> subst h <;> simp

/-- A canned shape-B body with tied maximal anger and joy scores. -/
def tieBody : Json :=
  Json.obj [("emotionPredictions", Json.arr [Json.obj [("emotion",
    Json.obj [("anger", Json.num 2), ("joy", Json.num 2)])]])]

/-- The result the client computes from `tieBody`. -/
def tieResult : EmotionResult :=
  { anger := Json.num 2, disgust := Json.num 0, fear := Json.num 0,
    joy := Json.num 2, sadness := Json.num 0,
    dominant_emotion := Json.str "anger" }

/-- Witness for C1 at a concrete tied input: anger and joy both score 2 and
the earlier key anger is chosen. -/
theorem dominant_emotion_matches_spec_witness :
    emotion_detector (fun _ => none) 200 tieBody = Except.ok tieResult ∧
    (200 : ℕ) ≠ 400 ∧
    tieResult.dominant_emotion = Json.str (specDominant 2 0 0 2 0) :=
  ⟨rfl, by decide,
   dominant_emotion_matches_spec (fun _ => none) 200 tieBody tieResult 2 0 0 2 0
     rfl (by decide) rfl rfl rfl rfl rfl⟩

/-- A canned decoder for a shape-A body whose nested document scores only
anger. -/
def angerLoads : String → Option Json :=
  fun t => if t = "E" then some (Json.obj [("anger", Json.num 3)]) else none

/-- A shape-A body carrying the nested document `"E"`. -/
def angerBody : Json := Json.obj [("text", Json.str "E")]

/-- The result the client computes from `angerBody` under `angerLoads`. -/
def angerResult : EmotionResult :=
  { anger := Json.num 3, disgust := Json.num 0, fear := Json.num 0,
    joy := Json.num 0, sadness := Json.num 0,
    dominant_emotion := Json.str "anger" }

/-- Witness for C4 at a concrete shape-A input with one present key and four
missing keys. -/
theorem scores_default_missing_to_zero_witness :
    emotion_detector angerLoads 200 angerBody = Except.ok angerResult ∧
    (200 : ℕ) ≠ 400 ∧
    extractEmotionResults angerLoads angerBody =
      Except.ok (Json.obj [("anger", Json.num 3)]) ∧
    (angerResult.anger =
        (lookupJ [("anger", Json.num 3)] "anger").getD (Json.num 0) ∧
     angerResult.disgust =
        (lookupJ [("anger", Json.num 3)] "disgust").getD (Json.num 0) ∧
     angerResult.fear =
        (lookupJ [("anger", Json.num 3)] "fear").getD (Json.num 0) ∧
     angerResult.joy =
        (lookupJ [("anger", Json.num 3)] "joy").getD (Json.num 0) ∧
     angerResult.sadness =
        (lookupJ [("anger", Json.num 3)] "sadness").getD (Json.num 0)) :=
  ⟨rfl, by decide, rfl,
   scores_default_missing_to_zero angerLoads 200 angerBody
     [("anger", Json.num 3)] angerResult rfl (by decide) rfl⟩

/-- A canned decoder returning an emotion object with none of the five
keys. -/
def emptyKeysLoads : String → Option Json :=
  fun _ => some (Json.obj [("other", Json.num 1)])

/-- A shape-A body to drive `emptyKeysLoads`. -/
def emptyKeysBody : Json := Json.obj [("text", Json.str "x")]

/-- The all-zero result with dominant emotion anger. -/
def zeroAngerResult : EmotionResult :=
  { anger := Json.num 0, disgust := Json.num 0, fear := Json.num 0,
    joy := Json.num 0, sadness := Json.num 0,
    dominant_emotion := Json.str "anger" }

/-- Witness for C8 at a concrete input whose emotion object has none of the
five keys. -/
theorem missing_keys_give_anger_witness :
    emotion_detector emptyKeysLoads 200 emptyKeysBody =
      Except.ok zeroAngerResult ∧
    (zeroAngerResult.dominant_emotion = Json.str "anger" ∨
     zeroAngerResult.dominant_emotion = Json.str "disgust" ∨
     zeroAngerResult.dominant_emotion = Json.str "fear" ∨
     zeroAngerResult.dominant_emotion = Json.str "joy" ∨
     zeroAngerResult.dominant_emotion = Json.str "sadness") :=
  ⟨missing_keys_give_anger_and_dominant_total.1 emptyKeysLoads 200
     emptyKeysBody [("other", Json.num 1)] (by decide) (by decide)
     rfl rfl rfl rfl rfl rfl,
   missing_keys_give_anger_and_dominant_total.2 emptyKeysLoads 200
     emptyKeysBody zeroAngerResult rfl (by decide)⟩

/-- C2: on HTTP 400 the client returns (rather than raising) the all-`None`
result, and the front-end, seeing the absent dominant emotion, renders
"Invalid text! Please try again!". -/
theorem http_400_gives_all_none_and_invalid_message
    (loads : String → Option Json) (body : Json)
    (detect : String → Except PyErr EmotionResult) (s : String)
    (hs : s ≠ "")
    (hd : detect s = emotion_detector loads 400 body) :
    emotion_detector loads 400 body = Except.ok nullEmotionResult ∧
    emotion_detection_view detect "POST" (some s) =
      ([s], Except.ok (some "Invalid text! Please try again!")) := by
  have h1 : emotion_detector loads 400 body = Except.ok nullEmotionResult := by
    rw [emotion_detector]
    simp
  refine ⟨h1, ?_⟩
  rw [emotion_detection_view]
  rw [h1] at hd
  simp [hs, hd, nullEmotionResult]

/-- Witness for C2 at a concrete statement and canned 400 response. -/
theorem http_400_gives_all_none_and_invalid_message_witness :
    ("hello" : String) ≠ "" ∧
    (fun _ => emotion_detector (fun _ => none) 400 Json.null) "hello" =
      emotion_detector (fun _ => none) 400 Json.null ∧
    (emotion_detector (fun _ => none) 400 Json.null =
       Except.ok nullEmotionResult ∧
     emotion_detection_view (fun _ => emotion_detector (fun _ => none) 400
         Json.null) "POST" (some "hello") =
       ([ "hello" ], Except.ok (some "Invalid text! Please try again!"))) :=
  ⟨by decide, rfl,
   http_400_gives_all_none_and_invalid_message (fun _ => none) Json.null
     (fun _ => emotion_detector (fun _ => none) 400 Json.null) "hello"
     (by decide) rfl⟩

/-- C5 counterexample: status 300 is neither a success status (2xx) nor 400,
yet `emotion_detector` raises nothing; `raise_for_status` only covers
400–599, so the parse path runs and returns an ordinary result. -/
def redirectLoads : String → Option Json :=
  fun t => if t = "{}" then some (Json.obj []) else none

/-- A shape-A body whose nested document is the empty object. -/
def redirectBody : Json := Json.obj [("text", Json.str "{}")]

/-- C5 as stated is false: at status 300 with a well-formed body the client
returns a result instead of raising `RemoteServiceError`. -/
theorem status_300_returns_instead_of_raising :
    emotion_detector redirectLoads 300 redirectBody =
      Except.ok zeroAngerResult ∧
    emotion_detector redirectLoads 300 redirectBody ≠
      Except.error PyErr.httpError :=
  ⟨rfl, by
    intro h
    rw [show emotion_detector redirectLoads 300 redirectBody =
          Except.ok zeroAngerResult from rfl] at h
    exact Except.noConfusion h⟩

/-- C5 amended: for every status in 400–599 other than 400 itself,
`emotion_detector` raises `RemoteServiceError`; statuses outside that range
are passed through to response parsing. -/
theorem error_status_range_raises (loads : String → Option Json)
    (status_code : ℕ) (body : Json)
    (h1 : 400 ≤ status_code) (h2 : status_code < 600)
    (h3 : status_code ≠ 400) :
    emotion_detector loads status_code body = Except.error PyErr.httpError := by
  rw [emotion_detector, if_neg h3, if_pos ⟨h1, h2⟩]

/-- Witness for the amended C5 at status 500. -/
theorem error_status_range_raises_witness :
    400 ≤ 500 ∧ 500 < 600 ∧ (500 : ℕ) ≠ 400 ∧
    emotion_detector (fun _ => none) 500 Json.null =
      Except.error PyErr.httpError :=
  ⟨by decide, by decide, by decide,
   error_status_range_raises (fun _ => none) 500 Json.null
     (by decide) (by decide) (by decide)⟩

/-- C6: an absent or empty `statement` field renders "Please enter a valid
statement." and the Emotion Client is never invoked (the call list is
empty). -/
theorem blank_statement_short_circuits
    (detect : String → Except PyErr EmotionResult) (statement : Option String)
    (hblank : statement = none ∨ statement = some "") :
    emotion_detection_view detect "POST" statement =
      ([], Except.ok (some "Please enter a valid statement.")) := by
  rcases hblank with h | h <;> subst h <;> rw [emotion_detection_view] <;> simp

/-- Witness for C6 at an absent statement and a canned client. -/
theorem blank_statement_short_circuits_witness :
    ((none : Option String) = none ∨ (none : Option String) = some "") ∧
    emotion_detection_view (fun _ => Except.ok nullEmotionResult) "POST" none =
      ([], Except.ok (some "Please enter a valid statement.")) :=
  ⟨Or.inl rfl,
   blank_statement_short_circuits (fun _ => Except.ok nullEmotionResult)
     none (Or.inl rfl)⟩

/-- C7: the client is deterministic in the canned remote response: two calls
with identical input text (which fixes the request) and identical status and
body yield identical results. -/
theorem detector_deterministic (loads : String → Option Json)
    (status_code : ℕ) (body : Json) (r₁ r₂ : Except PyErr EmotionResult)
    (h₁ : emotion_detector loads status_code body = r₁)
    (h₂ : emotion_detector loads status_code body = r₂) : r₁ = r₂ :=
  h₁ ▸ h₂

/-- Witness for C7 at a concrete canned response. -/
theorem detector_deterministic_witness :
    emotion_detector (fun _ => none) 400 Json.null =
      Except.ok nullEmotionResult ∧
    (Except.ok nullEmotionResult : Except PyErr EmotionResult) =
      Except.ok nullEmotionResult :=
  ⟨rfl,
   detector_deterministic (fun _ => none) 400 Json.null _ _ rfl rfl⟩

/-- Key membership in a field list coincides with a successful lookup. -/
lemma any_key_eq_isSome (fs : List (String × Json)) (k : String) :
    fs.any (fun p => decide (p.1 = k)) = (lookupJ fs k).isSome := by
  induction fs with
  | nil => rfl
  | cons q rest ih =>
    rw [List.any_cons]
    by_cases h : q.1 = k
    · simp [lookupJ, List.find?_cons, h]
    · simp only [lookupJ, List.find?_cons] at *
      simp [h, ih]

/-- C9 (implicit): when both top-level fields are present, shape A wins: the
extraction result is computed from the `text` field alone, so the
`emotionPredictions` field is ignored entirely. -/
theorem text_shape_takes_priority (loads : String → Option Json)
    (fs : List (String × Json)) (v p : Json)
    (htext : lookupJ fs "text" = some v)
    (hpred : lookupJ fs "emotionPredictions" = some p) :
    extractEmotionResults loads (Json.obj fs) =
      (match v with
       | Json.str s =>
         (match loads s with
          | some j => Except.ok j
          | none => Except.error PyErr.valueError)
       | _ => Except.error PyErr.typeError) := by
  have hany : fs.any (fun q => decide (q.1 = "text")) = true := by
    rw [any_key_eq_isSome, htext]
    rfl
  rw [extractEmotionResults]
  simp only [pyIn, hany, pySubscript, htext]
  cases v <;> simp

/-- Witness for C9: both fields present, the predictions entry is garbage,
and the text entry alone determines the (successful) result. -/
theorem text_shape_takes_priority_witness :
    lookupJ [("text", Json.str "E"), ("emotionPredictions", Json.num 7)]
        "text" = some (Json.str "E") ∧
    lookupJ [("text", Json.str "E"), ("emotionPredictions", Json.num 7)]
        "emotionPredictions" = some (Json.num 7) ∧
    extractEmotionResults angerLoads
        (Json.obj [("text", Json.str "E"), ("emotionPredictions", Json.num 7)]) =
      Except.ok (Json.obj [("anger", Json.num 3)]) :=
  ⟨rfl, rfl,
   text_shape_takes_priority angerLoads
     [("text", Json.str "E"), ("emotionPredictions", Json.num 7)]
     (Json.str "E") (Json.num 7) rfl rfl⟩

/-- C10 (implicit): a non-empty whitespace-only statement passes the
emptiness check and is forwarded to the Emotion Client. -/
theorem whitespace_statement_forwarded
    (detect : String → Except PyErr EmotionResult) (s : String)
    (hws : s.toList.all (fun c => c = ' ') = true) (hs : s ≠ "") :
    (emotion_detection_view detect "POST" (some s)).1 = [s] := by
  rw [emotion_detection_view]
  simp only [if_pos rfl]
  rw [if_neg hs]
  cases hd : detect s with
  | error e => simp
  | ok r => cases hdom : r.dominant_emotion <;> simp [hdom]

/-- Witness for C10 at the one-space statement. -/
theorem whitespace_statement_forwarded_witness :
    (" " : String).toList.all (fun c => c = ' ') = true ∧
    (" " : String) ≠ "" ∧
    (emotion_detection_view (fun _ => Except.ok nullEmotionResult) "POST"
        (some " ")).1 = [" "] :=
  ⟨by decide, by decide,
   whitespace_statement_forwarded (fun _ => Except.ok nullEmotionResult) " "
     (by decide) (by decide)⟩

/-- Well-typedness guard from C3's wording: when a `text` field is present its
value is a string (the claim speaks of the field's "string value"). -/
def textFieldTyped (fs : List (String × Json)) : Bool :=
  match lookupJ fs "text" with
  | some (Json.str _) => true
  | some _ => false
  | none => true

/-- Well-typedness guard from C3's wording: when an `emotionPredictions`
field is present it is a sequence whose first element, if any, is an object
(the claim speaks of the sequence being empty or its first element lacking a
field). -/
def predsFieldTyped (fs : List (String × Json)) : Bool :=
  match lookupJ fs "emotionPredictions" with
  | some (Json.arr []) => true
  | some (Json.arr (Json.obj _ :: _)) => true
  | some _ => false
  | none => true

/-- A failed Python `>` is always a `TypeError`. -/
lemma pyGt_error_eq (x y : Json) (e : PyErr)
    (h : pyGt x y = Except.error e) : e = PyErr.typeError := by
  cases x <;> cases y <;> simp_all [pyGt]

/-- A failed `max` loop is always a `TypeError`: it never manufactures the
`ValueError` reserved for the malformed-response cases. -/
lemma maxGo_error_eq (l : List (String × Json)) :
    ∀ k v e, maxGo k v l = Except.error e → e = PyErr.typeError := by
  induction l with
  | nil => intro k v e h; simp [maxGo] at h
  | cons p rest ih =>
    intro k v e h
    obtain ⟨k', v'⟩ := p
    rw [maxGo] at h
    cases hg : pyGt v' v with
    | error e' =>
      rw [hg] at h
      rw [Except.error.injEq] at h
      subst h
      exact pyGt_error_eq _ _ _ hg
    | ok b =>
      rw [hg] at h
      cases b with
      | false => exact ih _ _ _ h
      | true => exact ih _ _ _ h

/-- On the parse path, `emotion_detector` raises `ValueError` exactly when
the shape-selection block does: the score reads and the `max` computation
can only raise `AttributeError` or `TypeError`. -/
lemma detector_valueError_iff_extract (loads : String → Option Json)
    (status_code : ℕ) (body : Json)
    (h400 : status_code ≠ 400)
    (hrange : ¬(400 ≤ status_code ∧ status_code < 600)) :
    (emotion_detector loads status_code body =
       Except.error PyErr.valueError) ↔
    (extractEmotionResults loads body = Except.error PyErr.valueError) := by
  rw [emotion_detector, if_neg h400, if_neg hrange]
  cases hex : extractEmotionResults loads body with
  | error e => simp
  | ok er =>
    constructor
    · intro h
      exfalso
      cases er with
      | obj g =>
        simp only [pyGet] at h
        cases hm : pyMax [("anger", (lookupJ g "anger").getD (Json.num 0)),
            ("disgust", (lookupJ g "disgust").getD (Json.num 0)),
            ("fear", (lookupJ g "fear").getD (Json.num 0)),
            ("joy", (lookupJ g "joy").getD (Json.num 0)),
            ("sadness", (lookupJ g "sadness").getD (Json.num 0))] with
        | error e =>
          rw [hm] at h
          rw [Except.error.injEq] at h
          rw [pyMax] at hm
          have := maxGo_error_eq _ _ _ _ hm
          rw [this] at h
          exact PyErr.noConfusion h
        | ok k => rw [hm] at h; exact Except.noConfusion h
      | null => simp [pyGet] at h
      | bool b => simp [pyGet] at h
      | num q => simp [pyGet] at h
      | str s => simp [pyGet] at h
      | arr xs => simp [pyGet] at h
    · intro h
      exact absurd h (by simp)

/-- The shape-selection block raises `ValueError` exactly in the three
malformed cases, for bodies of the documented shapes. -/
lemma extract_valueError_iff (loads : String → Option Json)
    (fs : List (String × Json))
    (htext : textFieldTyped fs = true)
    (hpred : predsFieldTyped fs = true) :
    (extractEmotionResults loads (Json.obj fs) =
       Except.error PyErr.valueError) ↔
      ((∃ s, lookupJ fs "text" = some (Json.str s) ∧ loads s = none) ∨
       (lookupJ fs "text" = none ∧
         (lookupJ fs "emotionPredictions" = some (Json.arr []) ∨
          ∃ g rest, lookupJ fs "emotionPredictions" =
              some (Json.arr (Json.obj g :: rest)) ∧
            lookupJ g "emotion" = none)) ∨
       (lookupJ fs "text" = none ∧
        lookupJ fs "emotionPredictions" = none)) := by
  rw [extractEmotionResults]
  cases hT : lookupJ fs "text" with
  | some v =>
    have hany : (fs.any (fun p => decide (p.1 = "text"))) = true := by
      rw [any_key_eq_isSome, hT]
      rfl
    obtain ⟨s, rfl⟩ : ∃ s, v = Json.str s := by
      unfold textFieldTyped at htext
      rw [hT] at htext
      cases v <;> first | exact ⟨_, rfl⟩ | simp at htext
    simp only [pyIn, hany, pySubscript, hT]
    cases hl : loads s with
    | some j => simp [hl, hT]
    | none => simp [hl, hT]
  | none =>
    have hany : (fs.any (fun p => decide (p.1 = "text"))) = false := by
      rw [any_key_eq_isSome, hT]
      rfl
    simp only [pyIn, hany]
    cases hP : lookupJ fs "emotionPredictions" with
    | none =>
      have hany2 :
          (fs.any (fun p => decide (p.1 = "emotionPredictions"))) = false := by
        rw [any_key_eq_isSome, hP]
        rfl
      simp [hany2, hT, hP]
    | some p =>
      have hany2 :
          (fs.any (fun p => decide (p.1 = "emotionPredictions"))) = true := by
        rw [any_key_eq_isSome, hP]
        rfl
      have hg : pyGet (Json.obj fs) "emotionPredictions" (Json.arr []) =
          Except.ok p := by
        simp [pyGet, hP]
      unfold predsFieldTyped at hpred
      rw [hP] at hpred
      cases p with
      | arr xs =>
        cases xs with
        | nil => simp [hany2, hg, truthy, hT, hP]
        | cons x rest =>
          cases x with
          | obj g =>
            simp only [hany2, hg, truthy, List.isEmpty_cons, Bool.not_false,
              if_true, pySubscriptZero, pyIn]
            cases hE : lookupJ g "emotion" with
            | none =>
              have hany3 :
                  (g.any (fun p => decide (p.1 = "emotion"))) = false := by
                rw [any_key_eq_isSome, hE]
                rfl
              simp [hany3, hT, hP, hE]
            | some w =>
              have hany3 :
                  (g.any (fun p => decide (p.1 = "emotion"))) = true := by
                rw [any_key_eq_isSome, hE]
                rfl
              simp [hany3, pySubscript, hE, hT, hP]
          | null => simp at hpred
          | bool b => simp at hpred
          | num q => simp at hpred
          | str t => simp at hpred
          | arr ys => simp at hpred
      | null => simp at hpred
      | bool b => simp at hpred
      | num q => simp at hpred
      | str t => simp at hpred
      | obj g => simp at hpred

/-- C3: for a success-status response body of the documented shapes,
`emotion_detector` raises `MalformedResponseError` (`ValueError`) exactly in
the three cases: a `text` field whose string value fails the nested parse;
an `emotionPredictions` sequence that is empty or whose first element lacks
an `emotion` field; or neither top-level field present. -/
theorem malformed_response_exactly_three_cases (loads : String → Option Json)
    (status_code : ℕ) (fs : List (String × Json))
    (h400 : status_code ≠ 400)
    (hrange : ¬(400 ≤ status_code ∧ status_code < 600))
    (htext : textFieldTyped fs = true)
    (hpred : predsFieldTyped fs = true) :
    (emotion_detector loads status_code (Json.obj fs) =
       Except.error PyErr.valueError) ↔
      ((∃ s, lookupJ fs "text" = some (Json.str s) ∧ loads s = none) ∨
       (lookupJ fs "text" = none ∧
         (lookupJ fs "emotionPredictions" = some (Json.arr []) ∨
          ∃ g rest, lookupJ fs "emotionPredictions" =
              some (Json.arr (Json.obj g :: rest)) ∧
            lookupJ g "emotion" = none)) ∨
       (lookupJ fs "text" = none ∧
        lookupJ fs "emotionPredictions" = none)) := by
  rw [detector_valueError_iff_extract loads status_code (Json.obj fs)
    h400 hrange]
  exact extract_valueError_iff loads fs htext hpred

/-- Witness for C3 at a concrete body whose `text` value fails the nested
parse, under the always-failing decoder. -/
theorem malformed_response_exactly_three_cases_witness :
    (200 : ℕ) ≠ 400 ∧ ¬(400 ≤ 200 ∧ 200 < 600) ∧
    textFieldTyped [("text", Json.str "bad")] = true ∧
    predsFieldTyped [("text", Json.str "bad")] = true ∧
    ((emotion_detector (fun _ => none) 200
        (Json.obj [("text", Json.str "bad")]) =
       Except.error PyErr.valueError) ↔
      ((∃ s, lookupJ [("text", Json.str "bad")] "text" =
          some (Json.str s) ∧ (fun (_ : String) => (none : Option Json)) s = none) ∨
       (lookupJ [("text", Json.str "bad")] "text" = none ∧
         (lookupJ [("text", Json.str "bad")] "emotionPredictions" =
            some (Json.arr []) ∨
          ∃ g rest, lookupJ [("text", Json.str "bad")] "emotionPredictions" =
              some (Json.arr (Json.obj g :: rest)) ∧
            lookupJ g "emotion" = none)) ∨
       (lookupJ [("text", Json.str "bad")] "text" = none ∧
        lookupJ [("text", Json.str "bad")] "emotionPredictions" = none))) :=
  ⟨by decide, by decide, rfl, rfl,
   malformed_response_exactly_three_cases (fun _ => none) 200
     [("text", Json.str "bad")] (by decide) (by decide) rfl rfl⟩
